/-
Verification of the JoyGuard conversational-context core (joyguard_app).

Shallow embedding of the Python sources:
  * `src/joyguard_app/database.py`  — chat/user memory store (`Database.add_chat_memory`,
    `Database.get_chat_memories`, `Database.add_user_memory`);
  * `src/joyguard_app/memory.py`    — varied sampler (`choose_varied_entries`),
    fact extraction (`extract_memory_facts`), structured storage
    (`store_structured_memories`) and their helpers;
  * `src/joyguard_app/debate.py`    — the auto-debate decision engine
    (`should_trigger_auto_debate`, `mark_auto_debate_reply`).

Modelling conventions:
  * Python `int` is `Int`; Python `float` (only ever used here for wall-clock
    times and oracle confidences, on which the code performs nothing but
    subtraction and order comparisons) is modelled exactly as `ℚ`.
  * Python values that may be `None` are `Option _`; Python truthiness is made
    explicit at each use site (`0`, `""`, `[]`, `{}`, `None` are falsy).
  * Code that can raise an uncaught exception is embedded with result type
    `Option _`, `none` meaning "raises".
  * The external language-model call (`call_openrouter`) returns `str | None`;
    a response string is modelled together with the result of the Python
    standard library's `json.loads` on it (`OracleResp`), since `json.loads`
    is outside this repository.
  * The SQL tables are modelled as in-memory lists kept newest-first
    (descending autoincrement id), so `ORDER BY id DESC` is the list order;
    the descending-id invariant is proved (`applyChatMemoryCalls_invariant`).
  * `random.sample` is modelled by an explicit sampler parameter; theorems
    about sampled output assume only that the sampler returns the requested
    number of elements, without replacement, from its input.
-/
import Mathlib

attribute [local semireducible] Rat.add Rat.sub Rat.mul Rat.inv Rat.ofScientific

namespace JoyGuard

/-! ## JSON values (results of Python `json.loads`) -/

/-- A Python value produced by `json.loads`: JSON numbers without a fraction
or exponent decode to Python `int`, all others to `float` (modelled as `ℚ`). -/
inductive Json where
  | null
  | bool (b : Bool)
  | int (n : Int)
  | float (q : ℚ)
  | str (s : String)
  | arr (items : List Json)
  | obj (fields : List (String × Json))

/-- Python truthiness of a decoded JSON value: `None`, `False`, `0`, `0.0`,
`""`, `[]` and `{}` are falsy. -/
def Json.truthy : Json → Bool
  | .null => false
  | .bool b => b
  | .int n => n != 0
  | .float q => q != 0
  | .str s => s != ""
  | .arr l => !l.isEmpty
  | .obj l => !l.isEmpty

/-- `dict.get(k)` on a decoded JSON object (`None` when the key is absent).
`json.loads` keeps the last occurrence of a duplicated key. -/
def objGet (kvs : List (String × Json)) (k : String) : Option Json :=
  (kvs.reverse.find? (fun p => p.1 == k)).map (·.2)

/-- Python `x.get(k)`: `none` is the `AttributeError` raised when `x` is not a
dict; `some o` is the lookup result (`o = none` when the key is absent). -/
def pyGet : Json → String → Option (Option Json)
  | .obj kvs, k => some (objGet kvs k)
  | _, _ => none

/-! ## Python string primitives used by the code -/

/-- Python `str.lstrip()` (whitespace characters). -/
def pyLstrip (s : String) : String :=
  ⟨s.data.dropWhile Char.isWhitespace⟩

/-- Python `str.rstrip()` (whitespace characters). -/
def pyRstrip (s : String) : String :=
  ⟨(s.data.reverse.dropWhile Char.isWhitespace).reverse⟩

/-- Python `str.strip()` (whitespace characters). -/
def pyStrip (s : String) : String :=
  pyRstrip (pyLstrip s)

/-- Python `s[:n]` (slicing by characters). -/
def pyTake (s : String) (n : ℕ) : String :=
  ⟨s.data.take n⟩

/-- `pat` occurs as a contiguous run at the head of `l`. -/
def listStartsWith : List Char → List Char → Bool
  | [], _ => true
  | _ :: _, [] => false
  | p :: ps, c :: cs => p == c && listStartsWith ps cs

/-- `pat` occurs as a contiguous run somewhere in `l` (Python `pat in s`). -/
def listHasSub (pat : List Char) : List Char → Bool
  | [] => listStartsWith pat []
  | c :: cs => listStartsWith pat (c :: cs) || listHasSub pat cs

/-- Python `pat in hay` on strings. -/
def pyIn (pat hay : String) : Bool :=
  listHasSub pat.data hay.data

/-- Value of a (non-empty) decimal digit run. -/
def digitsVal (l : List Char) : ℕ :=
  l.foldl (fun n c => n * 10 + (c.toNat - '0'.toNat)) 0

/-- Models Python `float(s)` on finite decimal literals with an optional sign,
fraction and exponent (e.g. `"0.9"`, `"-2"`, `"1e3"`); other accepted spellings
(`inf`, `nan`, digit underscores) are outside the model and rejected. -/
def strToFloat (s : String) : Option ℚ :=
  let l := (pyStrip s).data
  let (sgn, l) : ℚ × List Char :=
    match l with
    | '+' :: rest => (1, rest)
    | '-' :: rest => (-1, rest)
    | _ => (1, l)
  let intPart := l.takeWhile Char.isDigit
  let l1 := l.dropWhile Char.isDigit
  let (fracPart, l2) : List Char × List Char :=
    match l1 with
    | '.' :: rest => (rest.takeWhile Char.isDigit, rest.dropWhile Char.isDigit)
    | _ => ([], l1)
  if intPart.isEmpty && fracPart.isEmpty then none
  else
    let mantissa : ℚ :=
      sgn * ((digitsVal intPart : ℚ) + (digitsVal fracPart : ℚ) / (10 ^ fracPart.length : ℕ))
    match l2 with
    | [] => some mantissa
    | 'e' :: rest => strToFloatExp mantissa rest
    | 'E' :: rest => strToFloatExp mantissa rest
    | _ => none
where
  /-- Exponent suffix of a Python float literal: optional sign, ≥ 1 digits. -/
  strToFloatExp (mantissa : ℚ) (l : List Char) : Option ℚ :=
    let (esgn, l) : Bool × List Char :=
      match l with
      | '+' :: rest => (false, rest)
      | '-' :: rest => (true, rest)
      | _ => (false, l)
    if l.isEmpty || !l.all Char.isDigit then none
    else some (mantissa * (10 : ℚ) ^ (if esgn then -(digitsVal l : ℤ) else (digitsVal l : ℤ)))

/-- Models Python `float(x)` on a decoded JSON value: `bool` is an `int`
subclass, numeric strings are parsed, everything else raises
(`TypeError`/`ValueError`), reported as `none`. -/
def pyFloat : Json → Option ℚ
  | .int n => some (n : ℚ)
  | .float q => some q
  | .bool b => some (if b then 1 else 0)
  | .str s => strToFloat s
  | .null => none
  | .arr _ => none
  | .obj _ => none

/-- Python `isinstance(x, int)` on a decoded JSON value (`bool` is an `int`
subclass), returning its integer value. -/
def pyIntOf : Json → Option Int
  | .int n => some n
  | .bool b => some (if b then 1 else 0)
  | _ => none

/-- Python `(a or b or "")` on two `str | None` values. -/
def orText (a b : Option String) : String :=
  match a with
  | some s => if s = "" then (b.getD "") else s
  | none => b.getD ""

/-! ## Configuration (`joyguard_app/settings.py`) -/

/-- Modelled from the spec: `settings.py` is imported by every module of the
repository but is not among its source files.  Per the spec these are fixed
configuration constants — the cooldown window, confidence threshold, reason
cap, per-record character cap, chat-memory retention cap `N`, minimum recent
share of the varied sampler, and the `M` cap on extracted facts — so they are
carried as explicit fields and the theorems quantify over them. -/
structure Settings where
  AUTO_DEBATE_ENABLED : Bool
  AUTO_DEBATE_MIN_TEXT_LENGTH : ℕ
  AUTO_DEBATE_COOLDOWN : ℚ
  AUTO_DEBATE_CONFIDENCE_THRESHOLD : ℚ
  AUTO_DEBATE_REASON_MAX_CHARS : ℕ
  CHAT_MEMORY_DB_LIMIT : ℕ
  CHAT_MEMORY_MESSAGE_CHAR_LIMIT : ℕ
  MEMORY_MIN_RECENT_SHARE : ℕ
  MAX_MEMORY_FACTS : ℕ

/-! ## Caller-supplied message objects (aiogram) -/

/-- The sender of a message (`aiogram.types.User`): `full_name` is a derived
`str` (possibly empty), `username` is `str | None`. -/
structure User where
  id : Int
  is_bot : Bool
  full_name : String
  username : Option String
deriving DecidableEq

/-- The fields of `aiogram.types.Message` the core reads. -/
structure Message where
  chat_type : String
  chat_id : Int
  message_id : Int
  from_user : Option User
  text : Option String
  caption : Option String
  content_type : String
deriving DecidableEq

/-- A caller-supplied Target dict `{user_id, name?, username?}`; a zero
`user_id` plays the Python-falsy role (`if not target_id: continue`). -/
structure Target where
  user_id : Int
  name : Option String
  username : Option String
deriving DecidableEq

/-- An oracle (`call_openrouter`) response string together with what the
Python standard library's `json.loads` yields on it (`none` =
`JSONDecodeError`); `json.loads` itself is outside this repository. -/
structure OracleResp where
  raw : String
  parsed : Option Json

/-! ## Memory store (`joyguard_app/database.py`) -/

/-- A row of the `chat_memories` table. -/
structure ChatMemoryRow where
  id : ℕ
  chat_id : Int
  message_id : Option Int
  author_id : Option Int
  author_name : Option String
  summary : String
deriving DecidableEq

/-- A row of the `user_memories` table. -/
structure UserMemoryRow where
  id : ℕ
  chat_id : Int
  subject_user_id : Int
  source_user_id : Option Int
  note : String
deriving DecidableEq

/-- The persistent store: both tables are kept newest-first (strictly
descending autoincrement id), so SQL `ORDER BY id DESC` is the list order —
see `applyChatMemoryCalls_invariant` for the proved id discipline. -/
structure Database where
  chat_memories : List ChatMemoryRow
  chatNextId : ℕ
  user_memories : List UserMemoryRow
  userNextId : ℕ

/-- The empty store. -/
def Database.empty : Database := ⟨[], 0, [], 0⟩

/-- `Database.add_chat_memory` (`database.py` lines 338–367): no-op on empty
summary; otherwise insert the summary truncated to
`CHAT_MEMORY_MESSAGE_CHAR_LIMIT`, then delete the conversation's rows whose id
is not among its `CHAT_MEMORY_DB_LIMIT` newest (`ORDER BY id DESC LIMIT N`). -/
def Database.add_chat_memory (S : Settings) (db : Database) (chat_id : Int)
    (message_id : Option Int) (author_id : Option Int)
    (author_name : Option String) (summary : String) : Database :=
  if summary = "" then db
  else
    let row : ChatMemoryRow :=
      ⟨db.chatNextId, chat_id, message_id, author_id, author_name,
       pyTake summary S.CHAT_MEMORY_MESSAGE_CHAR_LIMIT⟩
    let rows1 := row :: db.chat_memories
    let keep :=
      ((rows1.filter (fun r => r.chat_id == chat_id)).take S.CHAT_MEMORY_DB_LIMIT).map (·.id)
    { db with
      chat_memories := rows1.filter (fun r => !(r.chat_id == chat_id) || keep.contains r.id)
      chatNextId := db.chatNextId + 1 }

/-- `Database.get_chat_memories` (`database.py` lines 369–378):
`SELECT summary WHERE chat_id = ? ORDER BY id DESC LIMIT ?`. -/
def Database.get_chat_memories (db : Database) (chat_id : Int) (limit : ℕ) : List String :=
  ((db.chat_memories.filter (fun r => r.chat_id == chat_id)).take limit).map (·.summary)

/-- `Database.add_user_memory` (`database.py` lines 380–399): no-op on empty
note; otherwise insert the note truncated to `CHAT_MEMORY_MESSAGE_CHAR_LIMIT`;
no retention cap. -/
def Database.add_user_memory (S : Settings) (db : Database) (chat_id : Int)
    (subject_user_id : Int) (source_user_id : Option Int) (note : String) : Database :=
  if note = "" then db
  else
    { db with
      user_memories :=
        ⟨db.userNextId, chat_id, subject_user_id, source_user_id,
         pyTake note S.CHAT_MEMORY_MESSAGE_CHAR_LIMIT⟩ :: db.user_memories
      userNextId := db.userNextId + 1 }

/-- `Database.get_user_memories` (`database.py` lines 401–414):
`SELECT note WHERE chat_id = ? AND subject_user_id = ? ORDER BY id DESC LIMIT ?`. -/
def Database.get_user_memories (db : Database) (chat_id user_id : Int) (limit : ℕ) :
    List String :=
  ((db.user_memories.filter
      (fun r => r.chat_id == chat_id && r.subject_user_id == user_id)).take limit).map (·.note)

/-! ## Memory helpers (`joyguard_app/memory.py`) -/

/-- `choose_varied_entries` (`memory.py` lines 110–119).  `random.sample` is
the explicit `sample` parameter (list to draw from, number of draws);
`MEMORY_MIN_RECENT_SHARE` comes from the settings. -/
def choose_varied_entries (sample : List String → ℕ → List String) (S : Settings)
    (entries : List String) (limit : Int) : List String :=
  if limit ≤ 0 ∨ (entries.length : Int) ≤ limit then entries
  else
    let recent_keep :=
      entries.take (max S.MEMORY_MIN_RECENT_SHARE (min (limit.toNat / 2) entries.length))
    let remaining := entries.drop recent_keep.length
    let to_pick : Int := limit - recent_keep.length
    if !remaining.isEmpty ∧ 0 < to_pick then
      recent_keep ++ sample remaining (min to_pick.toNat remaining.length)
    else recent_keep

/-- `get_display_name` (`memory.py` lines 67–74). -/
def get_display_name : Option User → String
  | none => "Неизвестный"
  | some u =>
      if u.full_name ≠ "" then u.full_name
      else
        match u.username with
        | some un => if un ≠ "" then "@" ++ un else "ID" ++ toString u.id
        | none => "ID" ++ toString u.id

/-- `summarize_message_text` (`memory.py` lines 122–126). -/
def summarize_message_text (S : Settings) (msg : Message) : String :=
  let text := pyStrip (orText msg.text msg.caption)
  if text ≠ "" then pyTake text S.CHAT_MEMORY_MESSAGE_CHAR_LIMIT
  else "<" ++ msg.content_type ++ ">"

/-- One step of `user_facts.setdefault(uid, []).append(note.strip())`: Python
dicts keep insertion order of keys. -/
def addUserFact (acc : List (Int × List String)) (uid : Int) (note : String) :
    List (Int × List String) :=
  if acc.any (fun p => p.1 == uid) then
    acc.map (fun p => if p.1 == uid then (p.1, p.2 ++ [note]) else p)
  else acc ++ [(uid, [note])]

/-- Python `x[:M]` followed by iteration, for the `chat_facts` loop
(`memory.py` line 174): lists slice to their first `M` items, strings to their
first `M` one-character strings; anything else truthy raises `TypeError`
(`none`).  The caller has already replaced falsy values by `[]`. -/
def pySliceIter (v : Json) (M : ℕ) : Option (List Json) :=
  match v with
  | .arr l => some (l.take M)
  | .str s => some ((pyTake s M).data.map (fun c => Json.str (String.singleton c)))
  | _ => none

/-- Python `for entry in x` for the `user_facts` loop (`memory.py` line 178):
lists iterate their items, strings their characters, dicts their keys;
truthy numbers and booleans raise `TypeError` (`none`). -/
def pyIter (v : Json) : Option (List Json) :=
  match v with
  | .arr l => some l
  | .str s => some (s.data.map (fun c => Json.str (String.singleton c)))
  | .obj kvs => some (kvs.map (fun p => Json.str p.1))
  | _ => none

/-- `extract_memory_facts` (`memory.py` lines 136–185) from the oracle
response onward; the request payload only shapes the oracle call, which is the
`resp` parameter.  `hasApiKey` is the truthiness of `OPENROUTER_API_KEY`.
Result `none` is an uncaught exception escaping the function — note that only
the `chat_facts` loop is guarded by `isinstance(parsed, dict)`; the
`user_facts` loop calls `parsed.get` unconditionally. -/
def extract_memory_facts (S : Settings) (hasApiKey : Bool) (msg : Message)
    (resp : Option OracleResp) : Option (List String × List (Int × List String)) :=
  let text := orText msg.text msg.caption
  if text = "" ∨ hasApiKey = false then some ([], [])
  else
    match resp with
    | none => some ([], [])
    | some r =>
      if r.raw = "" then some ([], [])
      else
        match r.parsed with
        | none => some ([], [])
        | some parsed =>
          let chatStep : Option (List String) :=
            match parsed with
            | .obj kvs =>
              let v := (objGet kvs "chat_facts").getD Json.null
              let v := if v.truthy then v else Json.arr []
              match pySliceIter v S.MAX_MEMORY_FACTS with
              | none => none
              | some items =>
                  some (items.foldl (fun acc f =>
                    match f with
                    | Json.str s => if pyStrip s ≠ "" then acc ++ [pyStrip s] else acc
                    | _ => acc) [])
            | _ => some []
          match chatStep with
          | none => none
          | some chat_facts =>
            match pyGet parsed "user_facts" with
            | none => none
            | some uf0 =>
              let ufv := uf0.getD Json.null
              let ufv := if ufv.truthy then ufv else Json.arr []
              match pyIter ufv with
              | none => none
              | some entries =>
                let user_facts := entries.foldl (fun acc e =>
                  match e with
                  | Json.obj ekvs =>
                    match pyIntOf ((objGet ekvs "user_id").getD Json.null),
                          (objGet ekvs "note").getD Json.null with
                    | some uid, Json.str note =>
                        if pyStrip note ≠ "" then addUserFact acc uid (pyStrip note) else acc
                    | _, _ => acc
                  | _ => acc) []
                some (chat_facts, user_facts)

/-- Display name of a fallback target (`memory.py` lines 209–211). -/
def targetDisplay (t : Target) : String :=
  match t.name with
  | some n => if n ≠ "" then n else targetDisplayUsername t
  | none => targetDisplayUsername t
where
  /-- `f"@{target.get('username')}" if target.get("username") else "этот пользователь"` -/
  targetDisplayUsername (t : Target) : String :=
    match t.username with
    | some un => if un ≠ "" then "@" ++ un else "этот пользователь"
    | none => "этот пользователь"

/-- The synthesized fallback note of `memory.py` line 212. -/
def fallbackNote (S : Settings) (msg : Message) (t : Target) : String :=
  get_display_name msg.from_user ++ " обычно заводит тему '" ++
    summarize_message_text S msg ++ "' когда общается с " ++ targetDisplay t

/-- `store_structured_memories` (`memory.py` lines 188–213), with the outcome
of `extract_memory_facts` supplied as the `extraction` argument (the oracle
call inside it is external). -/
def store_structured_memories (S : Settings) (db : Database) (msg : Message)
    (targets : List Target) (extraction : List String × List (Int × List String)) :
    Database :=
  if ¬(msg.chat_type = "group" ∨ msg.chat_type = "supergroup") then db
  else
    let summary := summarize_message_text S msg
    let author_id := msg.from_user.map (·.id)
    let author_name := get_display_name msg.from_user
    let db1 := db.add_chat_memory S msg.chat_id (some msg.message_id) author_id
      (some author_name) summary
    let chat_facts := extraction.1
    let user_facts := extraction.2
    let db2 := chat_facts.foldl
      (fun d fact => d.add_chat_memory S msg.chat_id none author_id (some author_name) fact)
      db1
    let db3 := user_facts.foldl
      (fun d p => (p.2.take S.MAX_MEMORY_FACTS).foldl
        (fun d2 note => d2.add_user_memory S msg.chat_id p.1 author_id note) d)
      db2
    if chat_facts = [] ∧ user_facts = [] ∧ targets ≠ [] ∧ orText msg.text msg.caption ≠ "" then
      targets.foldl (fun d t =>
        if t.user_id = 0 then d
        else d.add_user_memory S msg.chat_id t.user_id author_id (fallbackNote S msg t)) db3
    else db3

/-! ## Debate decision engine (`joyguard_app/debate.py`) -/

/-- `debate.py` lines 96–99: lexical fallback used when the oracle response is
not (truthy) parsed JSON — case-insensitive substring scan for `"true"` /
`"yes"`, confidence forced to `1.0` / `0.0`, reason = stripped raw response
only when affirmative.  Returns `(should_reply, confidence, reason)` with
Python `None` rendered as `Json.null`. -/
def heuristic_branch (response : String) : Bool × ℚ × Json :=
  let lowered := response.toLower
  let should_reply := pyIn "true" lowered || pyIn "yes" lowered
  (should_reply,
   if should_reply then 1 else 0,
   if should_reply then Json.str (pyStrip response) else Json.null)

/-- `debate.py` lines 101–106: the structured path.  `none` is the
`AttributeError` raised by `parsed.get` when the truthy parse is not a dict;
a non-convertible confidence is coerced to `0.0` by the
`except (TypeError, ValueError)` handler. -/
def structured_branch (p : Json) : Option (Bool × ℚ × Json) :=
  match p with
  | Json.obj kvs =>
      some (Json.truthy ((objGet kvs "should_reply").getD Json.null),
            (pyFloat ((objGet kvs "confidence").getD (Json.int 0))).getD 0,
            (objGet kvs "reason").getD Json.null)
  | _ => none

/-- `debate.py` lines 108–123: strip / truncate a truthy reason (appending the
ellipsis after `rstrip` when over `AUTO_DEBATE_REASON_MAX_CHARS`), then
trigger iff `should_reply and confidence >= AUTO_DEBATE_CONFIDENCE_THRESHOLD`.
`none` is the `AttributeError` of `reason.strip()` on a truthy non-string. -/
def finish_decision (S : Settings) : Bool × ℚ × Json → Option (Bool × Json)
  | (should_reply, confidence, reasonJ) =>
    let step : Option Json :=
      if Json.truthy reasonJ then
        match reasonJ with
        | Json.str s =>
            let s := pyStrip s
            some (Json.str (if S.AUTO_DEBATE_REASON_MAX_CHARS < s.length then
              pyRstrip (pyTake s S.AUTO_DEBATE_REASON_MAX_CHARS) ++ "…" else s))
        | _ => none
      else some reasonJ
    match step with
    | none => none
    | some r =>
        if should_reply = true ∧ S.AUTO_DEBATE_CONFIDENCE_THRESHOLD ≤ confidence then
          some (true, r)
        else
          some (false, Json.null)

/-- `debate.py` lines 94–123: parse the response (`_parse_json_response`) and
route — truthy parse to the structured path, falsy or unparseable to the
lexical heuristic — then finish.  `none` = uncaught exception. -/
def decide_from_response (S : Settings) (r : OracleResp) : Option (Bool × Json) :=
  match r.parsed with
  | none => finish_decision S (heuristic_branch r.raw)
  | some p =>
      if Json.truthy p then (structured_branch p).bind (finish_decision S)
      else finish_decision S (heuristic_branch r.raw)

/-- `debate.py` lines 90–92: `if not response: return False, None`, then the
response is decided on.  The oracle call itself is external; its result is the
`resp` parameter. -/
def oracle_stage (S : Settings) (resp : Option OracleResp) : Option (Bool × Json) :=
  match resp with
  | none => some (false, Json.null)
  | some r => if r.raw = "" then some (false, Json.null) else decide_from_response S r

/-- `should_trigger_auto_debate` (`debate.py` lines 49–123).  The dialogue
context and serialized targets only shape the oracle request, which is the
`resp` parameter here, so they do not appear.  Wall-clock `now` and the
per-process `auto_debate_last_reply` map are explicit. -/
def should_trigger_auto_debate (S : Settings) (msg : Message)
    (auto_debate_last_reply : Int → Option ℚ) (now : ℚ)
    (resp : Option OracleResp) : Option (Bool × Json) :=
  if S.AUTO_DEBATE_ENABLED = false then some (false, Json.null)
  else
    match msg.from_user with
    | none => some (false, Json.null)
    | some u =>
      if u.is_bot then some (false, Json.null)
      else
        let text := pyStrip (orText msg.text msg.caption)
        if text.length < S.AUTO_DEBATE_MIN_TEXT_LENGTH then some (false, Json.null)
        else
          match auto_debate_last_reply msg.chat_id with
          | some last_reply =>
              if last_reply ≠ 0 ∧ now - last_reply < S.AUTO_DEBATE_COOLDOWN then
                some (false, Json.null)
              else oracle_stage S resp
          | none => oracle_stage S resp

/-- `mark_auto_debate_reply` (`debate.py` lines 126–129): record `time.time()`
for this chat in the `auto_debate_last_reply` map. -/
def mark_auto_debate_reply (m : Int → Option ℚ) (chat_id : Int) (now : ℚ) :
    Int → Option ℚ :=
  fun c => if c = chat_id then some now else m c

/-! ## Theorems: the varied sampler -/

/-- The front recency block size reserved by `choose_varied_entries` once the
identity guard has been passed. -/
def recencyBlockSize (S : Settings) (entries : List String) (limit : Int) : ℕ :=
  max S.MEMORY_MIN_RECENT_SHARE (min (limit.toNat / 2) entries.length)

/-- C6: `choose_varied_entries(entries, limit)` returns `entries` unchanged
whenever `limit ≤ 0` or `len(entries) ≤ limit`, and whenever
`len(entries) > limit` its output begins with (hence contains) the
`MEMORY_MIN_RECENT_SHARE` newest (front) entries of the newest-first input.
Holds for every sampler and every settings value. -/
theorem choose_varied_identity_and_recent_share
    (sample : List String → ℕ → List String) (S : Settings)
    (entries : List String) (limit : Int) :
    ((limit ≤ 0 ∨ (entries.length : Int) ≤ limit) →
      choose_varied_entries sample S entries limit = entries) ∧
    ((limit < (entries.length : Int)) →
      ∃ rest, choose_varied_entries sample S entries limit =
        entries.take S.MEMORY_MIN_RECENT_SHARE ++ rest) := by
  constructor
  · intro h
    simp only [choose_varied_entries, if_pos h]
  · intro hlt
    by_cases h : limit ≤ 0 ∨ (entries.length : Int) ≤ limit
    · refine ⟨entries.drop S.MEMORY_MIN_RECENT_SHARE, ?_⟩
      simp only [choose_varied_entries, if_pos h, List.take_append_drop]
    · simp only [choose_varied_entries, if_neg h]
      set K := max S.MEMORY_MIN_RECENT_SHARE (min (limit.toNat / 2) entries.length) with hKdef
      have hshare_le : S.MEMORY_MIN_RECENT_SHARE ≤ K := le_max_left _ _
      have htake : entries.take K =
          entries.take S.MEMORY_MIN_RECENT_SHARE ++
            ((entries.drop S.MEMORY_MIN_RECENT_SHARE).take
              (K - S.MEMORY_MIN_RECENT_SHARE)) := by
        rw [← List.take_add, Nat.add_sub_cancel' hshare_le]
      by_cases hc : (!(entries.drop (entries.take K).length).isEmpty) = true ∧
          0 < (limit - ((entries.take K).length : Int))
      · refine ⟨(entries.drop S.MEMORY_MIN_RECENT_SHARE).take
            (K - S.MEMORY_MIN_RECENT_SHARE) ++
            sample (entries.drop (entries.take K).length)
              (min (limit - ((entries.take K).length : Int)).toNat
                (entries.drop (entries.take K).length).length), ?_⟩
        rw [if_pos hc, htake, List.append_assoc]
      · exact ⟨_, by rw [if_neg hc, htake]⟩

/-- C6 at a concrete input: with one sampler, `limit = -1` returns the list
unchanged, and with `limit = 2 < 3` the output starts with the single newest
entry (`MEMORY_MIN_RECENT_SHARE = 1`). -/
theorem choose_varied_identity_and_recent_share_witness :
    (choose_varied_entries (fun l k => l.take k) ⟨true, 0, 60, 1, 5, 3, 100, 1, 5⟩
      ["a", "b", "c"] (-1) = ["a", "b", "c"]) ∧
    ∃ rest, choose_varied_entries (fun l k => l.take k) ⟨true, 0, 60, 1, 5, 3, 100, 1, 5⟩
      ["a", "b", "c"] 2 = (["a", "b", "c"].take 1) ++ rest :=
  ⟨(choose_varied_identity_and_recent_share (fun l k => l.take k)
      ⟨true, 0, 60, 1, 5, 3, 100, 1, 5⟩ ["a", "b", "c"] (-1)).1 (by decide),
   (choose_varied_identity_and_recent_share (fun l k => l.take k)
      ⟨true, 0, 60, 1, 5, 3, 100, 1, 5⟩ ["a", "b", "c"] 2).2 (by decide)⟩

/-- C7 as stated is false: with `MEMORY_MIN_RECENT_SHARE = 2`, `entries` of
length `3 > limit = 1 > 0`, the result has 2 elements, not exactly
`limit = 1` (the reserved block `max(2, min(0, 3)) = 2` already exceeds the
budget and nothing is sampled, whatever the sampler). -/
theorem choose_varied_budget_counterexample :
    (0 : Int) < 1 ∧ (1 : Int) < ((["a", "b", "c"] : List String).length : Int) ∧
    (choose_varied_entries (fun l k => l.take k) ⟨true, 0, 60, 1, 5, 3, 100, 2, 5⟩
      ["a", "b", "c"] 1).length = 2 := by
  decide

/-- C7 (amended: additionally `MEMORY_MIN_RECENT_SHARE ≤ limit`): for every
sampler that returns the requested number of elements drawn without
replacement from its input, and every `entries`, `limit` with
`len(entries) > limit > 0`, the result is the front recency block of size
`max(minRecentShare, min(limit/2, len(entries)))` plus older entries sampled
without replacement filling the remainder of the budget, so it has exactly
`limit` elements. -/
theorem choose_varied_exact_budget
    (sample : List String → ℕ → List String) (S : Settings)
    (entries : List String) (limit : Int)
    (hs : ∀ l k, k ≤ l.length → (sample l k).length = k ∧ List.Subperm (sample l k) l)
    (hlim : 0 < limit) (hlen : limit < (entries.length : Int))
    (hshare : S.MEMORY_MIN_RECENT_SHARE ≤ limit.toNat) :
    ∃ s, List.Subperm s (entries.drop (recencyBlockSize S entries limit)) ∧
      choose_varied_entries sample S entries limit =
        entries.take (recencyBlockSize S entries limit) ++ s ∧
      (choose_varied_entries sample S entries limit).length = limit.toNat := by
  have hlimnat : (limit.toNat : Int) = limit := Int.toNat_of_nonneg (le_of_lt hlim)
  have hguard : ¬(limit ≤ 0 ∨ (entries.length : Int) ≤ limit) := by omega
  unfold recencyBlockSize
  simp only [choose_varied_entries, if_neg hguard]
  set K := max S.MEMORY_MIN_RECENT_SHARE (min (limit.toNat / 2) entries.length) with hKdef
  have hll : limit.toNat < entries.length := by omega
  have hKle : K ≤ limit.toNat := by rw [hKdef]; omega
  have hKlt : K < entries.length := lt_of_le_of_lt hKle hll
  have hrklen : (entries.take K).length = K := by
    rw [List.length_take]
    omega
  rw [hrklen]
  have hremlen : (entries.drop K).length = entries.length - K := List.length_drop _ _
  have hremne : (entries.drop K).isEmpty = false := by
    cases hdrop : entries.drop K with
    | nil =>
        exfalso
        have h0 : entries.length - K = 0 := by
          have hcong := congrArg List.length hdrop
          simpa [List.length_drop] using hcong
        omega
    | cons a t => rfl
  by_cases hpick : 0 < (limit - (K : Int))
  · have hcond : ((!(entries.drop K).isEmpty) = true ∧ 0 < (limit - (K : Int))) := by
      rw [hremne]
      exact ⟨rfl, hpick⟩
    rw [if_pos hcond]
    have hmin : min (limit - (K : Int)).toNat (entries.drop K).length = limit.toNat - K := by
      omega
    rw [hmin]
    have hsk := hs (entries.drop K) (limit.toNat - K) (by omega)
    refine ⟨sample (entries.drop K) (limit.toNat - K), hsk.2, rfl, ?_⟩
    rw [List.length_append, hrklen, hsk.1]
    omega
  · have hcond : ¬((!(entries.drop K).isEmpty) = true ∧ 0 < (limit - (K : Int))) := by
      intro hc
      exact absurd hc.2 (by omega)
    rw [if_neg hcond]
    exact ⟨[], List.nil_subperm, by simp, by rw [hrklen]; omega⟩

/-- C7 (amended) at a concrete input: 5 entries, `limit = 3`, share 1, the
head-taking sampler: the result is the 1-element recency block plus 2 sampled
older entries, exactly 3 elements. -/
theorem choose_varied_exact_budget_witness :
    ∃ s, List.Subperm s (["a", "b", "c", "d", "e"].drop
        (recencyBlockSize ⟨true, 0, 60, 1, 5, 3, 100, 1, 5⟩ ["a", "b", "c", "d", "e"] 3)) ∧
      choose_varied_entries (fun l k => l.take k) ⟨true, 0, 60, 1, 5, 3, 100, 1, 5⟩
          ["a", "b", "c", "d", "e"] 3 =
        ["a", "b", "c", "d", "e"].take
          (recencyBlockSize ⟨true, 0, 60, 1, 5, 3, 100, 1, 5⟩ ["a", "b", "c", "d", "e"] 3) ++ s ∧
      (choose_varied_entries (fun l k => l.take k) ⟨true, 0, 60, 1, 5, 3, 100, 1, 5⟩
          ["a", "b", "c", "d", "e"] 3).length = (3 : Int).toNat :=
  choose_varied_exact_budget (fun l k => l.take k) ⟨true, 0, 60, 1, 5, 3, 100, 1, 5⟩
    ["a", "b", "c", "d", "e"] 3
    (fun l k hk => ⟨by simp [hk], List.take_sublist k l |>.subperm⟩)
    (by decide) (by decide) (by decide)

/-! ## Theorems: the debate decision engine -/

/-- The cooldown gate of `debate.py` line 67 does not fire for this chat's
`auto_debate_last_reply` entry. -/
def cooldownOpen (S : Settings) (entry : Option ℚ) (now : ℚ) : Prop :=
  ∀ t, entry = some t → ¬(t ≠ 0 ∧ now - t < S.AUTO_DEBATE_COOLDOWN)

/-- When every synchronous gate passes (feature enabled, non-bot sender,
text long enough, cooldown open), the decision is exactly the oracle stage. -/
theorem should_trigger_gates_pass (S : Settings) (msg : Message)
    (lm : Int → Option ℚ) (now : ℚ) (resp : Option OracleResp)
    (hen : S.AUTO_DEBATE_ENABLED = true)
    (u : User) (hu : msg.from_user = some u) (hbot : u.is_bot = false)
    (hlen : S.AUTO_DEBATE_MIN_TEXT_LENGTH ≤ (pyStrip (orText msg.text msg.caption)).length)
    (hcd : cooldownOpen S (lm msg.chat_id) now) :
    should_trigger_auto_debate S msg lm now resp = oracle_stage S resp := by
  unfold should_trigger_auto_debate
  rw [hu]
  simp only [hen, hbot, Bool.true_eq_false, Bool.false_eq_true, if_false,
    if_neg (not_lt.mpr hlen)]
  cases hlast : lm msg.chat_id with
  | none => rfl
  | some t => exact if_neg (hcd t hlast)

/-- C2: once `mark_auto_debate_reply(chat_id)` has recorded a (positive
wall-clock) trigger time `t`, every candidate message in that conversation
evaluated at `now` with `now - t < AUTO_DEBATE_COOLDOWN` yields
`(False, None)` whatever the oracle response is — the `resp` parameter is
universally quantified, so the result is fixed before (and independently of)
the oracle: two qualifying messages 10 s apart under a 60 s window can
produce at most one trigger.  (`time.time()` is seconds since the epoch, so
recorded trigger times are positive; `0 < t` encodes that domain.) -/
theorem auto_debate_cooldown_blocks_second_trigger (S : Settings)
    (lm : Int → Option ℚ) (msg : Message) (t now : ℚ) (resp : Option OracleResp)
    (ht : 0 < t) (hcool : now - t < S.AUTO_DEBATE_COOLDOWN) :
    should_trigger_auto_debate S msg (mark_auto_debate_reply lm msg.chat_id t) now resp
      = some (false, Json.null) := by
  have hmk : mark_auto_debate_reply lm msg.chat_id t msg.chat_id = some t := by
    unfold mark_auto_debate_reply
    rw [if_pos rfl]
  by_cases hen : S.AUTO_DEBATE_ENABLED = false
  · unfold should_trigger_auto_debate
    rw [if_pos hen]
  · have hen' : S.AUTO_DEBATE_ENABLED = true := by
      revert hen
      cases S.AUTO_DEBATE_ENABLED <;> simp
    unfold should_trigger_auto_debate
    cases hu : msg.from_user with
    | none => simp [hen']
    | some u =>
      by_cases hbot : u.is_bot = true
      · simp [hen', hbot]
      · rw [Bool.not_eq_true] at hbot
        by_cases hl :
            (pyStrip (orText msg.text msg.caption)).length < S.AUTO_DEBATE_MIN_TEXT_LENGTH
        · simp [hen', hbot, if_pos hl]
        · simp only [hen', hbot, Bool.true_eq_false, Bool.false_eq_true, if_false,
            if_neg hl, hmk, if_pos (And.intro (ne_of_gt ht) hcool)]

/-- C2 at a concrete input: window 60 s, trigger recorded at `t = 100`,
second qualifying message at `now = 110` (10 s later), oracle answering
`{"should_reply": true, "confidence": 0.9}`: the result is `(False, None)`. -/
theorem auto_debate_cooldown_blocks_second_trigger_witness :
    (0 : ℚ) < 100 ∧ (110 : ℚ) - 100 < (60 : ℚ) ∧
    should_trigger_auto_debate ⟨true, 1, 60, (3 : ℚ)/5, 200, 50, 500, 1, 5⟩
      ⟨"group", 1, 10, some ⟨7, false, "A", none⟩, some "this is plainly wrong", none, "text"⟩
      (mark_auto_debate_reply (fun _ => none) 1 100) 110
      (some ⟨"\x7b\"should_reply\": true, \"confidence\": 0.9\x7d",
        some (Json.obj [("should_reply", Json.bool true), ("confidence", Json.float ((9:ℚ)/10))])⟩)
      = some (false, Json.null) :=
  ⟨by decide, by decide,
   auto_debate_cooldown_blocks_second_trigger _ _ _ _ _ _ (by decide) (by decide)⟩

/-- A reason value that is falsy or a string never makes the post-processing
of `debate.py` lines 108–111 raise: the decision reduces to the threshold
test, with some final reason value on trigger. -/
theorem finish_decision_of_reason_ok (S : Settings) (sr : Bool) (conf : ℚ) (rj : Json)
    (hr : Json.truthy rj = false ∨ ∃ s, rj = Json.str s) :
    ∃ r, finish_decision S (sr, conf, rj) =
      if sr = true ∧ S.AUTO_DEBATE_CONFIDENCE_THRESHOLD ≤ conf then some (true, r)
      else some (false, Json.null) := by
  rcases hr with hfalsy | ⟨s, rfl⟩
  · refine ⟨rj, ?_⟩
    simp only [finish_decision]
    rw [if_neg (by rw [hfalsy]; exact Bool.false_ne_true)]
  · by_cases hs : Json.truthy (Json.str s) = true
    · refine ⟨Json.str (if S.AUTO_DEBATE_REASON_MAX_CHARS < (pyStrip s).length then
        pyRstrip (pyTake (pyStrip s) S.AUTO_DEBATE_REASON_MAX_CHARS) ++ "…" else pyStrip s), ?_⟩
      simp only [finish_decision]
      rw [if_pos hs]
    · refine ⟨Json.str s, ?_⟩
      simp only [finish_decision]
      rw [if_neg hs]

/-- C3: when every earlier gate passes and the oracle response parses to a
truthy JSON object whose `should_reply` is a boolean `b`, whose `confidence`
converts to the number `q`, and whose `reason` is absent, falsy or a string
(the expected schema), `should_trigger_auto_debate` triggers iff
`b = true ∧ AUTO_DEBATE_CONFIDENCE_THRESHOLD ≤ q`, and otherwise returns
`(False, None)` — so `should_reply = true` with confidence 0.4 under
threshold 0.6 yields `(False, None)`. -/
theorem auto_debate_structured_trigger_iff (S : Settings) (msg : Message)
    (lm : Int → Option ℚ) (now : ℚ) (raw : String) (kvs : List (String × Json))
    (b : Bool) (q : ℚ)
    (hen : S.AUTO_DEBATE_ENABLED = true)
    (u : User) (hu : msg.from_user = some u) (hbot : u.is_bot = false)
    (hlen : S.AUTO_DEBATE_MIN_TEXT_LENGTH ≤ (pyStrip (orText msg.text msg.caption)).length)
    (hcd : cooldownOpen S (lm msg.chat_id) now)
    (hraw : raw ≠ "")
    (hne : kvs ≠ [])
    (hsr : (objGet kvs "should_reply").getD Json.null = Json.bool b)
    (hconf : pyFloat ((objGet kvs "confidence").getD (Json.int 0)) = some q)
    (hreason : Json.truthy ((objGet kvs "reason").getD Json.null) = false ∨
      ∃ s, (objGet kvs "reason").getD Json.null = Json.str s) :
    ((should_trigger_auto_debate S msg lm now (some ⟨raw, some (Json.obj kvs)⟩)).map Prod.fst
        = some true ↔ (b = true ∧ S.AUTO_DEBATE_CONFIDENCE_THRESHOLD ≤ q)) ∧
    (¬(b = true ∧ S.AUTO_DEBATE_CONFIDENCE_THRESHOLD ≤ q) →
      should_trigger_auto_debate S msg lm now (some ⟨raw, some (Json.obj kvs)⟩)
        = some (false, Json.null)) := by
  rw [should_trigger_gates_pass S msg lm now _ hen u hu hbot hlen hcd]
  simp only [oracle_stage]
  rw [if_neg hraw]
  simp only [decide_from_response]
  have htr : Json.truthy (Json.obj kvs) = true := by
    cases kvs with
    | nil => exact absurd rfl hne
    | cons a l => rfl
  rw [if_pos htr]
  simp only [structured_branch]
  rw [hsr, hconf]
  have hb : Json.truthy (Json.bool b) = b := rfl
  rw [hb]
  simp only [Option.getD_some, Option.some_bind]
  obtain ⟨r, hfin⟩ := finish_decision_of_reason_ok S b q
    ((objGet kvs "reason").getD Json.null) hreason
  rw [hfin]
  by_cases hcond : b = true ∧ S.AUTO_DEBATE_CONFIDENCE_THRESHOLD ≤ q
  · rw [if_pos hcond]
    exact ⟨by simp [hcond], fun hn => absurd hcond hn⟩
  · rw [if_neg hcond]
    exact ⟨by simp [hcond], fun _ => rfl⟩

/-- C3 at a concrete input: gates pass, the oracle answers
`should_reply = true` with confidence `0.4` under threshold `0.6`: the
decision is `(False, None)` (the trigger iff is false on both sides). -/
theorem auto_debate_structured_trigger_iff_witness :
    ((should_trigger_auto_debate ⟨true, 1, 60, (3 : ℚ)/5, 200, 50, 500, 1, 5⟩
        ⟨"group", 1, 10, some ⟨7, false, "A", none⟩, some "this is plainly wrong", none, "text"⟩
        (fun _ => none) 0
        (some ⟨"\x7b\"should_reply\": true, \"confidence\": 0.4\x7d",
          some (Json.obj [("should_reply", Json.bool true),
            ("confidence", Json.float ((2:ℚ)/5))])⟩)).map Prod.fst
      = some true ↔ (true = true ∧ ((3 : ℚ)/5 ≤ (2:ℚ)/5))) ∧
    (¬(true = true ∧ ((3 : ℚ)/5 ≤ (2:ℚ)/5)) →
      should_trigger_auto_debate ⟨true, 1, 60, (3 : ℚ)/5, 200, 50, 500, 1, 5⟩
        ⟨"group", 1, 10, some ⟨7, false, "A", none⟩, some "this is plainly wrong", none, "text"⟩
        (fun _ => none) 0
        (some ⟨"\x7b\"should_reply\": true, \"confidence\": 0.4\x7d",
          some (Json.obj [("should_reply", Json.bool true),
            ("confidence", Json.float ((2:ℚ)/5))])⟩)
        = some (false, Json.null)) :=
  auto_debate_structured_trigger_iff _ _ _ _ _ _ true ((2:ℚ)/5)
    rfl ⟨7, false, "A", none⟩ rfl rfl (by decide)
    (fun t h => Option.noConfusion h) (by decide) (List.cons_ne_nil _ _)
    rfl rfl (Or.inl rfl)

/-- C9: an oracle response that is valid JSON but parses to a falsy value
(`{}`, `null`, `0`, `""`, …) is routed to the lexical affirmation heuristic,
exactly as an unparseable response with the same raw text would be, and not
to the structured path. -/
theorem auto_debate_falsy_parse_uses_heuristic (S : Settings) (msg : Message)
    (lm : Int → Option ℚ) (now : ℚ) (raw : String) (v : Json)
    (hfalsy : Json.truthy v = false) :
    decide_from_response S ⟨raw, some v⟩ = finish_decision S (heuristic_branch raw) ∧
    should_trigger_auto_debate S msg lm now (some ⟨raw, some v⟩)
      = should_trigger_auto_debate S msg lm now (some ⟨raw, none⟩) := by
  have h1 : decide_from_response S ⟨raw, some v⟩ = finish_decision S (heuristic_branch raw) := by
    simp only [decide_from_response]
    rw [if_neg (by rw [hfalsy]; exact Bool.false_ne_true)]
  refine ⟨h1, ?_⟩
  have h2 : oracle_stage S (some ⟨raw, some v⟩) = oracle_stage S (some ⟨raw, none⟩) := by
    simp only [oracle_stage]
    by_cases hraw : raw = ""
    · rw [if_pos hraw, if_pos hraw]
    · rw [if_neg hraw, if_neg hraw, h1]
      rfl
  unfold should_trigger_auto_debate
  rw [h2]

/-- C9 at a concrete input: the empty JSON object `{}` (falsy) is handled by
the heuristic exactly like an unparseable response. -/
theorem auto_debate_falsy_parse_uses_heuristic_witness :
    decide_from_response ⟨true, 1, 60, (3 : ℚ)/5, 200, 50, 500, 1, 5⟩
        ⟨"\x7b\x7d", some (Json.obj [])⟩
      = finish_decision ⟨true, 1, 60, (3 : ℚ)/5, 200, 50, 500, 1, 5⟩
          (heuristic_branch "\x7b\x7d") ∧
    should_trigger_auto_debate ⟨true, 1, 60, (3 : ℚ)/5, 200, 50, 500, 1, 5⟩
        ⟨"group", 1, 10, some ⟨7, false, "A", none⟩, some "this is plainly wrong", none, "text"⟩
        (fun _ => none) 0 (some ⟨"\x7b\x7d", some (Json.obj [])⟩)
      = should_trigger_auto_debate ⟨true, 1, 60, (3 : ℚ)/5, 200, 50, 500, 1, 5⟩
        ⟨"group", 1, 10, some ⟨7, false, "A", none⟩, some "this is plainly wrong", none, "text"⟩
        (fun _ => none) 0 (some ⟨"\x7b\x7d", none⟩) :=
  auto_debate_falsy_parse_uses_heuristic _ _ _ _ "\x7b\x7d" (Json.obj []) rfl

/-- A zero coerced confidence can never reach a positive threshold, whatever
the `should_reply` flag or the reason value. -/
theorem finish_decision_zero_confidence (S : Settings) (sr : Bool) (rj : Json)
    (hthr : 0 < S.AUTO_DEBATE_CONFIDENCE_THRESHOLD) :
    (finish_decision S (sr, 0, rj)).map Prod.fst ≠ some true := by
  have hc : ¬(sr = true ∧ S.AUTO_DEBATE_CONFIDENCE_THRESHOLD ≤ 0) := by
    rintro ⟨-, hle⟩
    exact absurd hle (not_le.mpr hthr)
  simp only [finish_decision]
  split
  · simp
  · rw [if_neg hc]
    simp

/-- C10: a structured response whose `confidence` field is missing or not
convertible to a float is processed with confidence coerced to `0.0`, so
under any positive threshold it never yields a trigger whatever
`should_reply` is; a numeric string such as `"0.9"` is, however, accepted as
the number `0.9`. -/
theorem auto_debate_unconvertible_confidence (S : Settings) (raw : String)
    (kvs : List (String × Json))
    (hne : kvs ≠ [])
    (hconf : objGet kvs "confidence" = none ∨
      pyFloat ((objGet kvs "confidence").getD (Json.int 0)) = none)
    (hthr : 0 < S.AUTO_DEBATE_CONFIDENCE_THRESHOLD) :
    structured_branch (Json.obj kvs) =
      some (Json.truthy ((objGet kvs "should_reply").getD Json.null), 0,
        (objGet kvs "reason").getD Json.null) ∧
    (decide_from_response S ⟨raw, some (Json.obj kvs)⟩).map Prod.fst ≠ some true ∧
    pyFloat (Json.str "0.9") = some ((9 : ℚ)/10) := by
  have hzero : (pyFloat ((objGet kvs "confidence").getD (Json.int 0))).getD 0 = 0 := by
    rcases hconf with hmiss | hnone
    · rw [hmiss]
      simp [pyFloat]
    · rw [hnone]
      rfl
  have h1 : structured_branch (Json.obj kvs) =
      some (Json.truthy ((objGet kvs "should_reply").getD Json.null), 0,
        (objGet kvs "reason").getD Json.null) := by
    simp only [structured_branch]
    rw [hzero]
  refine ⟨h1, ?_, by decide⟩
  have htr : Json.truthy (Json.obj kvs) = true := by
    cases kvs with
    | nil => exact absurd rfl hne
    | cons a l => rfl
  simp only [decide_from_response]
  rw [if_pos htr, h1, Option.some_bind]
  exact finish_decision_zero_confidence S _ _ hthr

/-- C10 at a concrete input: `confidence` present but `null` (not float
convertible), `should_reply` true, threshold 0.6: no trigger; and `"0.9"`
converts to `0.9`. -/
theorem auto_debate_unconvertible_confidence_witness :
    structured_branch (Json.obj [("should_reply", Json.bool true), ("confidence", Json.null)]) =
      some (Json.truthy ((objGet [("should_reply", Json.bool true), ("confidence", Json.null)]
          "should_reply").getD Json.null), 0,
        (objGet [("should_reply", Json.bool true), ("confidence", Json.null)]
          "reason").getD Json.null) ∧
    (decide_from_response ⟨true, 1, 60, (3 : ℚ)/5, 200, 50, 500, 1, 5⟩
        ⟨"\x7b\"should_reply\": true, \"confidence\": null\x7d",
         some (Json.obj [("should_reply", Json.bool true),
           ("confidence", Json.null)])⟩).map Prod.fst ≠ some true ∧
    pyFloat (Json.str "0.9") = some ((9 : ℚ)/10) :=
  auto_debate_unconvertible_confidence ⟨true, 1, 60, (3 : ℚ)/5, 200, 50, 500, 1, 5⟩
    "\x7b\"should_reply\": true, \"confidence\": null\x7d"
    [("should_reply", Json.bool true), ("confidence", Json.null)]
    (List.cons_ne_nil _ _) (Or.inr rfl) (by decide)

/-! ## Theorems: reason truncation (C8) -/

/-- The reason post-processing applied by `debate.py` lines 109–111 to a
truthy string reason: strip, and on overflow truncate to the cap, right-strip
and append the ellipsis. -/
def truncateReason (S : Settings) (s : String) : String :=
  let t := pyStrip s
  if S.AUTO_DEBATE_REASON_MAX_CHARS < t.length then
    pyRstrip (pyTake t S.AUTO_DEBATE_REASON_MAX_CHARS) ++ "…"
  else t

/-- C8 as stated is false: with cap 5 and the oracle reason `" hi "` (4
characters, shorter than the cap), the returned reason is the stripped
`"hi"`, not the unchanged `" hi "`. -/
theorem auto_debate_reason_truncation_counterexample :
    should_trigger_auto_debate ⟨true, 1, 60, 0, 5, 3, 100, 1, 5⟩
      ⟨"group", 1, 10, some ⟨7, false, "A", none⟩, some "hello", none, "text"⟩
      (fun _ => none) 0
      (some ⟨"x", some (Json.obj [("should_reply", Json.bool true), ("confidence", Json.int 1),
        ("reason", Json.str " hi ")])⟩)
      = some (true, Json.str "hi") ∧
    (" hi ").length < 5 ∧ "hi" ≠ " hi " :=
  ⟨rfl, by decide, by decide⟩

/-- Right-stripping never lengthens a string. -/
theorem pyRstrip_length_le (s : String) : (pyRstrip s).length ≤ s.length := by
  show ((s.data.reverse.dropWhile Char.isWhitespace).reverse).length ≤ s.data.length
  rw [List.length_reverse]
  calc (s.data.reverse.dropWhile Char.isWhitespace).length
      ≤ s.data.reverse.length := (List.dropWhile_suffix _).sublist.length_le
    _ = s.data.length := List.length_reverse _

/-- A character slice `s[:n]` has at most `n` characters. -/
theorem pyTake_length_le (s : String) (n : ℕ) : (pyTake s n).length ≤ n := by
  show (s.data.take n).length ≤ n
  rw [List.length_take]
  omega

/-- C8 (amended): whenever the engine returns a reason from a (truthy) string
reason `s`, the returned reason is `s` stripped of surrounding whitespace; if
the stripped text exceeds `AUTO_DEBATE_REASON_MAX_CHARS`, the result is its
first cap characters with trailing whitespace removed plus the ellipsis
marker — so it ends with the ellipsis and has at most cap + 1 characters — and
a stripped reason within the cap is returned as the stripped text. -/
theorem auto_debate_reason_truncation_amended (S : Settings) (sr : Bool) (conf : ℚ)
    (s : String) (hs : s ≠ "")
    (htrig : sr = true ∧ S.AUTO_DEBATE_CONFIDENCE_THRESHOLD ≤ conf) :
    finish_decision S (sr, conf, Json.str s) = some (true, Json.str (truncateReason S s)) ∧
    (S.AUTO_DEBATE_REASON_MAX_CHARS < (pyStrip s).length →
      (truncateReason S s).length ≤ S.AUTO_DEBATE_REASON_MAX_CHARS + 1 ∧
      ∃ p, truncateReason S s = p ++ "…") ∧
    ((pyStrip s).length ≤ S.AUTO_DEBATE_REASON_MAX_CHARS →
      truncateReason S s = pyStrip s) := by
  refine ⟨?_, ?_, ?_⟩
  · have hst : Json.truthy (Json.str s) = true := by
      simp [Json.truthy, hs]
    simp only [finish_decision]
    rw [if_pos hst]
    exact if_pos htrig
  · intro hover
    unfold truncateReason
    rw [if_pos hover]
    constructor
    · rw [String.length_append]
      have h1 := pyRstrip_length_le (pyTake (pyStrip s) S.AUTO_DEBATE_REASON_MAX_CHARS)
      have h2 := pyTake_length_le (pyStrip s) S.AUTO_DEBATE_REASON_MAX_CHARS
      have h3 : ("…" : String).length = 1 := rfl
      omega
    · exact ⟨_, rfl⟩
  · intro hunder
    unfold truncateReason
    rw [if_neg (not_lt.mpr hunder)]

/-- C8 (amended) at a concrete input: cap 5, reason `"toxic nonsense"`
(stripped length 14 > 5): the returned reason is the rstripped 5-character
prefix `"toxic"` plus the ellipsis, 6 ≤ 5 + 1 characters ending in the
marker. -/
theorem auto_debate_reason_truncation_amended_witness :
    finish_decision ⟨true, 1, 60, 0, 5, 3, 100, 1, 5⟩ (true, 1, Json.str "toxic nonsense")
      = some (true, Json.str (truncateReason ⟨true, 1, 60, 0, 5, 3, 100, 1, 5⟩
          "toxic nonsense")) ∧
    (5 < (pyStrip "toxic nonsense").length →
      (truncateReason ⟨true, 1, 60, 0, 5, 3, 100, 1, 5⟩ "toxic nonsense").length ≤ 5 + 1 ∧
      ∃ p, truncateReason ⟨true, 1, 60, 0, 5, 3, 100, 1, 5⟩ "toxic nonsense" = p ++ "…") ∧
    ((pyStrip "toxic nonsense").length ≤ 5 →
      truncateReason ⟨true, 1, 60, 0, 5, 3, 100, 1, 5⟩ "toxic nonsense"
        = pyStrip "toxic nonsense") :=
  auto_debate_reason_truncation_amended ⟨true, 1, 60, 0, 5, 3, 100, 1, 5⟩ true 1
    "toxic nonsense" (by decide) ⟨rfl, by decide⟩

/-! ## Theorems: the chat-memory retention cap (C1) -/

/-- The argument tuple of one `Database.add_chat_memory` call. -/
structure AddChatMemoryCall where
  chat_id : Int
  message_id : Option Int
  author_id : Option Int
  author_name : Option String
  summary : String

/-- Replay a sequence of `add_chat_memory` calls against the empty store. -/
def applyChatMemoryCalls (S : Settings) (ops : List AddChatMemoryCall) : Database :=
  ops.foldl
    (fun db op =>
      db.add_chat_memory S op.chat_id op.message_id op.author_id op.author_name op.summary)
    Database.empty

/-- The reference log: every row the calls insert (empty summaries skipped),
newest first, together with the next autoincrement id. -/
def insertedChatRows (S : Settings) (ops : List AddChatMemoryCall) :
    List ChatMemoryRow × ℕ :=
  ops.foldl
    (fun acc op =>
      if op.summary = "" then acc
      else (⟨acc.2, op.chat_id, op.message_id, op.author_id, op.author_name,
        pyTake op.summary S.CHAT_MEMORY_MESSAGE_CHAR_LIMIT⟩ :: acc.1, acc.2 + 1))
    ([], 0)

/-- The SQL trim of `add_chat_memory`: filtering a row list with strictly
descending (hence duplicate-free) ids by membership of the id among the ids
of its own first `N` rows keeps exactly those first `N` rows. -/
theorem filter_mem_take_ids (m : List ChatMemoryRow) (N : ℕ)
    (hpw : List.Pairwise (fun a b => b.id < a.id) m) :
    m.filter (fun r => ((m.take N).map (·.id)).contains r.id) = m.take N := by
  have hsplit := List.take_append_drop N m
  set t := m.take N with ht
  set d := m.drop N with hd
  have hpw2 : List.Pairwise (fun a b => b.id < a.id) (t ++ d) := by
    rw [hsplit]
    exact hpw
  have hcross := (List.pairwise_append.mp hpw2).2.2
  conv_lhs => rw [← hsplit]
  rw [List.filter_append]
  have h1 : t.filter (fun r => (t.map (·.id)).contains r.id) = t :=
    List.filter_eq_self.mpr fun r hr => List.elem_iff.mpr (List.mem_map_of_mem (·.id) hr)
  have h2 : d.filter (fun r => (t.map (·.id)).contains r.id) = [] := by
    refine List.filter_eq_nil_iff.mpr fun r hr hmem => ?_
    obtain ⟨a, ha, haid⟩ := List.mem_map.mp (List.elem_iff.mp hmem)
    exact absurd haid (Nat.ne_of_gt (hcross a ha r hr))
  rw [h1, h2, List.append_nil]

/-- Replaying `add_chat_memory` calls maintains: the next id counts the
inserted rows, the reference log has strictly descending ids bounded by it,
and for every conversation the stored rows are exactly the first
`CHAT_MEMORY_DB_LIMIT` (newest) of that conversation's reference log. -/
theorem applyChatMemoryCalls_invariant (S : Settings) (ops : List AddChatMemoryCall) :
    (applyChatMemoryCalls S ops).chatNextId = (insertedChatRows S ops).2 ∧
    (∀ r ∈ (insertedChatRows S ops).1, r.id < (insertedChatRows S ops).2) ∧
    List.Pairwise (fun a b => b.id < a.id) (insertedChatRows S ops).1 ∧
    ∀ c, (applyChatMemoryCalls S ops).chat_memories.filter (fun r => r.chat_id == c) =
      ((insertedChatRows S ops).1.filter (fun r => r.chat_id == c)).take
        S.CHAT_MEMORY_DB_LIMIT := by
  induction ops using List.reverseRecOn with
  | nil =>
      refine ⟨rfl, ?_, ?_, ?_⟩
      · intro r hr
        simp [insertedChatRows] at hr
      · simp [insertedChatRows]
      · intro c
        simp [applyChatMemoryCalls, insertedChatRows, Database.empty]
  | append_singleton ops op ih =>
      obtain ⟨ihn, ihb, ihp, ihf⟩ := ih
      have happly : applyChatMemoryCalls S (ops ++ [op]) =
          (applyChatMemoryCalls S ops).add_chat_memory S op.chat_id op.message_id
            op.author_id op.author_name op.summary := by
        unfold applyChatMemoryCalls
        rw [List.foldl_append]
        rfl
      have hins : insertedChatRows S (ops ++ [op]) =
          (if op.summary = "" then insertedChatRows S ops
           else (⟨(insertedChatRows S ops).2, op.chat_id, op.message_id, op.author_id,
              op.author_name, pyTake op.summary S.CHAT_MEMORY_MESSAGE_CHAR_LIMIT⟩ ::
                (insertedChatRows S ops).1,
              (insertedChatRows S ops).2 + 1)) := by
        unfold insertedChatRows
        rw [List.foldl_append]
        rfl
      by_cases hemp : op.summary = ""
      · rw [happly, hins, if_pos hemp]
        unfold Database.add_chat_memory
        rw [if_pos hemp]
        exact ⟨ihn, ihb, ihp, ihf⟩
      · set n := (insertedChatRows S ops).2 with hn
        set ref := (insertedChatRows S ops).1 with href
        set row : ChatMemoryRow := ⟨n, op.chat_id, op.message_id, op.author_id,
          op.author_name, pyTake op.summary S.CHAT_MEMORY_MESSAGE_CHAR_LIMIT⟩ with hrow
        have hins2 : insertedChatRows S (ops ++ [op]) = (row :: ref, n + 1) := by
          rw [hins, if_neg hemp]
        set db := applyChatMemoryCalls S ops with hdb
        set m1 := row :: db.chat_memories with hm1
        have hrows : (applyChatMemoryCalls S (ops ++ [op])).chat_memories =
            m1.filter (fun r => !(r.chat_id == op.chat_id) ||
              (((m1.filter (fun r => r.chat_id == op.chat_id)).take
                S.CHAT_MEMORY_DB_LIMIT).map (·.id)).contains r.id) := by
          rw [happly]
          unfold Database.add_chat_memory
          rw [if_neg hemp, ihn]
        have hnext : (applyChatMemoryCalls S (ops ++ [op])).chatNextId = n + 1 := by
          rw [happly]
          unfold Database.add_chat_memory
          rw [if_neg hemp, ihn]
        refine ⟨by rw [hnext, hins2], ?_, ?_, ?_⟩
        · rw [hins2]
          intro r hr
          rcases List.mem_cons.mp hr with hr0 | hrold
          · have : row.id = n := rfl
            rw [hr0]
            omega
          · have := ihb r hrold
            omega
        · rw [hins2]
          refine List.Pairwise.cons ?_ ihp
          intro b hb
          have : row.id = n := rfl
          have := ihb b hb
          omega
        · intro c
          rw [hrows, hins2]
          by_cases hc : c = op.chat_id
          case neg =>
            rw [List.filter_filter]
            have hpred : ∀ r ∈ m1,
                ((r.chat_id == c) &&
                  (!(r.chat_id == op.chat_id) ||
                    (((m1.filter (fun r => r.chat_id == op.chat_id)).take
                      S.CHAT_MEMORY_DB_LIMIT).map (·.id)).contains r.id))
                  = (r.chat_id == c) := by
              intro r _
              by_cases hrc : r.chat_id = c
              · have h1 : (r.chat_id == c) = true := beq_iff_eq.mpr hrc
                have h2 : (r.chat_id == op.chat_id) = false := by
                  rw [beq_eq_false_iff_ne, hrc]
                  exact hc
                rw [h1, h2]
                rfl
              · have h1 : (r.chat_id == c) = false := beq_eq_false_iff_ne.mpr hrc
                rw [h1]
                rfl
            rw [List.filter_congr hpred]
            have hrowc : (row.chat_id == c) = false := by
              have : row.chat_id = op.chat_id := rfl
              rw [this, beq_eq_false_iff_ne]
              exact fun h => hc h.symm
            rw [hm1, List.filter_cons, hrowc]
            simp only [Bool.false_eq_true, if_false]
            rw [ihf c, List.filter_cons, hrowc]
            simp only [Bool.false_eq_true, if_false]
          case pos =>
            rw [← hc]
            have hrowc : (row.chat_id == c) = true := by
              rw [show row.chat_id = op.chat_id from rfl]
              exact beq_iff_eq.mpr hc.symm
            have hm : m1.filter (fun r => r.chat_id == c) =
                row :: ((ref.filter (fun r => r.chat_id == c)).take S.CHAT_MEMORY_DB_LIMIT) := by
              rw [hm1, List.filter_cons, hrowc]
              simp only [if_true]
              rw [ihf c]
            have hsub : ((ref.filter (fun r => r.chat_id == c)).take
                S.CHAT_MEMORY_DB_LIMIT).Sublist ref :=
              (List.take_sublist _ _).trans (List.filter_sublist _)
            have hnd : List.Pairwise (fun a b => b.id < a.id)
                (m1.filter (fun r => r.chat_id == c)) := by
              rw [hm]
              refine List.Pairwise.cons ?_ (ihp.sublist hsub)
              intro b hb
              have h1 : row.id = n := rfl
              have h2 := ihb b (hsub.subset hb)
              omega
            rw [List.filter_filter]
            have hpred2 : ∀ r ∈ m1,
                ((r.chat_id == c) &&
                  (!(r.chat_id == c) ||
                    (((m1.filter (fun r => r.chat_id == c)).take
                      S.CHAT_MEMORY_DB_LIMIT).map (·.id)).contains r.id))
                  = ((r.chat_id == c) &&
                    (((m1.filter (fun r => r.chat_id == c)).take
                      S.CHAT_MEMORY_DB_LIMIT).map (·.id)).contains r.id) := by
              intro r _
              cases hb : (r.chat_id == c) with
              | false => rfl
              | true => rfl
            have hcomm : ∀ r ∈ m1,
                ((r.chat_id == c) &&
                    (((m1.filter (fun r => r.chat_id == c)).take
                      S.CHAT_MEMORY_DB_LIMIT).map (·.id)).contains r.id)
                  = ((((m1.filter (fun r => r.chat_id == c)).take
                      S.CHAT_MEMORY_DB_LIMIT).map (·.id)).contains r.id &&
                    (r.chat_id == c)) :=
              fun r _ => Bool.and_comm _ _
            rw [List.filter_congr hpred2, List.filter_congr hcomm, ← List.filter_filter,
              filter_mem_take_ids _ _ hnd, hm, List.filter_cons, hrowc]
            simp only [if_true]
            cases hN : S.CHAT_MEMORY_DB_LIMIT with
            | zero => simp
            | succ N =>
                rw [List.take_succ_cons, List.take_succ_cons, List.take_take,
                  show min N (N + 1) = N from by omega]

/-- The summaries `add_chat_memory` inserts for conversation `c`, newest
first (insertion order reversed), truncated as stored. -/
def recentChatSummaries (S : Settings) (ops : List AddChatMemoryCall) (c : Int) :
    List String :=
  ((ops.filter (fun o => o.chat_id == c && !(o.summary == ""))).map
    (fun o => pyTake o.summary S.CHAT_MEMORY_MESSAGE_CHAR_LIMIT)).reverse

/-- The per-conversation reference log carries exactly the summaries of that
conversation's non-empty insertions, newest first. -/
theorem insertedChatRows_summaries (S : Settings) (ops : List AddChatMemoryCall) (c : Int) :
    ((insertedChatRows S ops).1.filter (fun r => r.chat_id == c)).map (·.summary) =
      recentChatSummaries S ops c := by
  induction ops using List.reverseRecOn with
  | nil => rfl
  | append_singleton ops op ih =>
      have hins : insertedChatRows S (ops ++ [op]) =
          (if op.summary = "" then insertedChatRows S ops
           else (⟨(insertedChatRows S ops).2, op.chat_id, op.message_id, op.author_id,
              op.author_name, pyTake op.summary S.CHAT_MEMORY_MESSAGE_CHAR_LIMIT⟩ ::
                (insertedChatRows S ops).1,
              (insertedChatRows S ops).2 + 1)) := by
        unfold insertedChatRows
        rw [List.foldl_append]
        rfl
      have hrhs : recentChatSummaries S (ops ++ [op]) c =
          ((if op.chat_id == c && !(op.summary == "") then
              [pyTake op.summary S.CHAT_MEMORY_MESSAGE_CHAR_LIMIT] else []) ++
            recentChatSummaries S ops c) := by
        unfold recentChatSummaries
        rw [List.filter_append, List.map_append, List.reverse_append]
        congr 1
        cases hcond : (op.chat_id == c && !(op.summary == "")) with
        | false => rw [List.filter_cons, List.filter_nil, hcond]; rfl
        | true => rw [List.filter_cons, List.filter_nil, hcond]; rfl
      rw [hrhs]
      by_cases hemp : op.summary = ""
      · have hcond : (op.chat_id == c && !(op.summary == "")) = false := by
          have : (op.summary == "") = true := beq_iff_eq.mpr hemp
          rw [this]
          simp
        rw [hins, if_pos hemp, hcond, ih]
        rfl
      · rw [hins, if_neg hemp]
        by_cases hcc : op.chat_id = c
        · have hcond : (op.chat_id == c && !(op.summary == "")) = true := by
            rw [beq_iff_eq.mpr hcc, beq_eq_false_iff_ne.mpr hemp]
            rfl
          rw [hcond]
          simp only [List.filter_cons]
          rw [show ((⟨(insertedChatRows S ops).2, op.chat_id, op.message_id, op.author_id,
            op.author_name, pyTake op.summary S.CHAT_MEMORY_MESSAGE_CHAR_LIMIT⟩ :
              ChatMemoryRow).chat_id == c) = true from beq_iff_eq.mpr hcc]
          simp only [if_true, List.map_cons]
          rw [ih]
          rfl
        · have hcond : (op.chat_id == c && !(op.summary == "")) = false := by
            rw [beq_eq_false_iff_ne.mpr hcc]
            rfl
          rw [hcond]
          simp only [List.filter_cons]
          rw [show ((⟨(insertedChatRows S ops).2, op.chat_id, op.message_id, op.author_id,
            op.author_name, pyTake op.summary S.CHAT_MEMORY_MESSAGE_CHAR_LIMIT⟩ :
              ChatMemoryRow).chat_id == c) = false from beq_eq_false_iff_ne.mpr hcc]
          simp only [Bool.false_eq_true, if_false]
          rw [ih]
          rfl

/-- C1: after any sequence of `add_chat_memory` calls starting from the empty
store, `get_chat_memories(chat_id, N)` with `N = CHAT_MEMORY_DB_LIMIT`
returns at most `N` rows, and those rows are exactly the `N` most recently
inserted chat memories of that conversation, newest first by insertion id
(summaries truncated as stored; calls with an empty summary insert
nothing). -/
theorem chat_memory_cap_invariant (S : Settings) (ops : List AddChatMemoryCall) (c : Int) :
    (applyChatMemoryCalls S ops).get_chat_memories c S.CHAT_MEMORY_DB_LIMIT =
      (recentChatSummaries S ops c).take S.CHAT_MEMORY_DB_LIMIT ∧
    ((applyChatMemoryCalls S ops).get_chat_memories c S.CHAT_MEMORY_DB_LIMIT).length
      ≤ S.CHAT_MEMORY_DB_LIMIT := by
  have hf := (applyChatMemoryCalls_invariant S ops).2.2.2 c
  have heq : (applyChatMemoryCalls S ops).get_chat_memories c S.CHAT_MEMORY_DB_LIMIT =
      (recentChatSummaries S ops c).take S.CHAT_MEMORY_DB_LIMIT := by
    unfold Database.get_chat_memories
    rw [hf, List.take_take, min_self, List.map_take, insertedChatRows_summaries]
  refine ⟨heq, ?_⟩
  rw [heq]
  exact List.length_take_le _ _

/-! ## Theorems: the fact-extraction pipeline (C4, C5) -/

/-- C4 evidence: a syntactically valid JSON response that is not an object —
here the array `[]` — makes `extract_memory_facts` raise `AttributeError` at
the unguarded `parsed.get("user_facts")` (result `none` in the embedding),
while a genuinely unparseable response (a `JSONDecodeError`) does yield the
empty results `([], {})`. -/
theorem extract_memory_facts_array_raises :
    extract_memory_facts ⟨true, 1, 60, 1, 5, 3, 100, 1, 5⟩ true
      ⟨"group", 1, 10, some ⟨7, false, "A", none⟩, some "hello", none, "text"⟩
      (some ⟨"[]", some (Json.arr [])⟩) = none ∧
    extract_memory_facts ⟨true, 1, 60, 1, 5, 3, 100, 1, 5⟩ true
      ⟨"group", 1, 10, some ⟨7, false, "A", none⟩, some "hello", none, "text"⟩
      (some ⟨"not json", none⟩) = some ([], []) :=
  ⟨rfl, rfl⟩

/-- The identifying data of a `user_memories` row (everything except the
autoincrement id). -/
def userRowData (r : UserMemoryRow) : Int × Int × Option Int × String :=
  (r.chat_id, r.subject_user_id, r.source_user_id, r.note)

/-- `add_user_memory` with a non-empty note prepends exactly one truncated
row. -/
theorem add_user_memory_user_memories (S : Settings) (db : Database) (chat_id : Int)
    (subject_user_id : Int) (source_user_id : Option Int) (note : String)
    (h : note ≠ "") :
    (db.add_user_memory S chat_id subject_user_id source_user_id note).user_memories =
      ⟨db.userNextId, chat_id, subject_user_id, source_user_id,
        pyTake note S.CHAT_MEMORY_MESSAGE_CHAR_LIMIT⟩ :: db.user_memories := by
  unfold Database.add_user_memory
  rw [if_neg h]

/-- `add_chat_memory` never touches the `user_memories` table. -/
theorem add_chat_memory_user_memories (S : Settings) (db : Database) (chat_id : Int)
    (message_id : Option Int) (author_id : Option Int) (author_name : Option String)
    (summary : String) :
    (db.add_chat_memory S chat_id message_id author_id author_name summary).user_memories =
      db.user_memories := by
  unfold Database.add_chat_memory
  by_cases h : summary = ""
  · rw [if_pos h]
  · rw [if_neg h]

/-- The synthesized fallback note is never empty (its fixed connective text
alone is non-empty), so `add_user_memory` always inserts it. -/
theorem fallbackNote_ne_empty (S : Settings) (msg : Message) (t : Target) :
    fallbackNote S msg t ≠ "" := by
  intro h
  have hlen := congrArg String.length h
  rw [show fallbackNote S msg t = get_display_name msg.from_user ++
    " обычно заводит тему '" ++ summarize_message_text S msg ++
    "' когда общается с " ++ targetDisplay t from rfl] at hlen
  rw [String.length_append, String.length_append, String.length_append,
    String.length_append] at hlen
  have h1 : 0 < (" обычно заводит тему '" : String).length := by decide
  have h0 : ("" : String).length = 0 := rfl
  omega

/-- Folding the fallback loop over targets with non-falsy user ids records
exactly one fallback note per target, newest first. -/
theorem fallback_fold_user_memories (S : Settings) (msg : Message)
    (targets : List Target) (d : Database)
    (hv : ∀ t ∈ targets, t.user_id ≠ 0) :
    ((targets.foldl (fun d t =>
        if t.user_id = 0 then d
        else d.add_user_memory S msg.chat_id t.user_id (msg.from_user.map (·.id))
          (fallbackNote S msg t)) d).user_memories).map userRowData =
      (targets.map (fun t => (msg.chat_id, t.user_id, msg.from_user.map (·.id),
        pyTake (fallbackNote S msg t) S.CHAT_MEMORY_MESSAGE_CHAR_LIMIT))).reverse ++
        d.user_memories.map userRowData := by
  induction targets generalizing d with
  | nil => simp
  | cons t ts ih =>
      have hne := hv t (List.mem_cons_self t ts)
      simp only [List.foldl_cons, if_neg hne]
      rw [ih _ (fun t' ht' => hv t' (List.mem_cons_of_mem t ht'))]
      rw [add_user_memory_user_memories S d msg.chat_id t.user_id
        (msg.from_user.map (·.id)) (fallbackNote S msg t) (fallbackNote_ne_empty S msg t)]
      simp only [List.map_cons, List.reverse_cons, List.append_assoc, List.cons_append,
        List.nil_append, userRowData]

/-- C5: in a group conversation, when the extraction produced no chat facts
and no user facts, at least one Target (each with a non-falsy user id, as the
Target data model requires) was supplied, and the message carried text, then
`store_structured_memories` records exactly one fallback user-memory note per
supplied target — attributed to that target's user id and naming that target
via its display name inside the synthesized note — and with zero Targets
supplied it records no fallback note at all. -/
theorem store_structured_memories_fallback (S : Settings) (db : Database) (msg : Message)
    (targets : List Target)
    (hg : msg.chat_type = "group" ∨ msg.chat_type = "supergroup")
    (ht : targets ≠ [])
    (hv : ∀ t ∈ targets, t.user_id ≠ 0)
    (htxt : orText msg.text msg.caption ≠ "") :
    ((store_structured_memories S db msg targets ([], [])).user_memories).map userRowData =
      (targets.map (fun t => (msg.chat_id, t.user_id, msg.from_user.map (·.id),
        pyTake (fallbackNote S msg t) S.CHAT_MEMORY_MESSAGE_CHAR_LIMIT))).reverse ++
        db.user_memories.map userRowData ∧
    (store_structured_memories S db msg [] ([], [])).user_memories = db.user_memories := by
  constructor
  · simp only [store_structured_memories]
    rw [if_neg (not_not_intro hg), if_pos ⟨trivial, trivial, ht, htxt⟩]
    simp only [List.foldl_nil]
    rw [fallback_fold_user_memories S msg targets _ hv]
    rw [add_chat_memory_user_memories]
  · simp only [store_structured_memories]
    by_cases hg0 : ¬(msg.chat_type = "group" ∨ msg.chat_type = "supergroup")
    · rw [if_pos hg0]
    · rw [if_neg hg0]
      have hcond : ¬(True ∧ True ∧ ([] : List Target) ≠ [] ∧
          orText msg.text msg.caption ≠ "") := by
        rintro ⟨-, -, hne, -⟩
        exact hne rfl
      rw [if_neg hcond]
      simp only [List.foldl_nil]
      rw [add_chat_memory_user_memories]

/-- C5 at a concrete input: oracle extraction empty, one Target (user 2 named
"Петя"), message text "привет": exactly one fallback note is recorded for
user 2; with zero targets nothing is recorded. -/
theorem store_structured_memories_fallback_witness :
    ((store_structured_memories ⟨true, 1, 60, 1, 5, 3, 100, 1, 5⟩ Database.empty
        ⟨"group", 1, 10, some ⟨7, false, "Вася", none⟩, some "привет", none, "text"⟩
        [⟨2, some "Петя", none⟩] ([], [])).user_memories).map userRowData =
      ([⟨2, some "Петя", none⟩].map (fun t => ((1 : Int), t.user_id,
        (some (7 : Int) : Option Int),
        pyTake (fallbackNote ⟨true, 1, 60, 1, 5, 3, 100, 1, 5⟩
          ⟨"group", 1, 10, some ⟨7, false, "Вася", none⟩, some "привет", none, "text"⟩ t)
          100))).reverse ++
        Database.empty.user_memories.map userRowData ∧
    (store_structured_memories ⟨true, 1, 60, 1, 5, 3, 100, 1, 5⟩ Database.empty
        ⟨"group", 1, 10, some ⟨7, false, "Вася", none⟩, some "привет", none, "text"⟩
        [] ([], [])).user_memories = Database.empty.user_memories :=
  store_structured_memories_fallback ⟨true, 1, 60, 1, 5, 3, 100, 1, 5⟩ Database.empty
    ⟨"group", 1, 10, some ⟨7, false, "Вася", none⟩, some "привет", none, "text"⟩
    [⟨2, some "Петя", none⟩] (Or.inl rfl) (List.cons_ne_nil _ _)
    (fun t htm => by
      rcases List.mem_singleton.mp htm with rfl
      decide)
    (by decide)

end JoyGuard
